import Mathlib

/-!
# Shallow embedding of `src/dmxController.js` (DMX512 lighting controller)

This file models the `DMXController` class as pure state-passing functions.

Modelling conventions:
* JS `Map`s become association lists (`List (String × α)`) with `mapGet`/`mapSet`;
  the JS `Set` `activeEffects` becomes a duplicate-free `List String`.
* JS numbers that hold channel numbers / channel values become `ℤ`;
  timestamps (`Date.now()`, `new Date()`) become a `now : ℕ` argument threaded
  through each operation; time quantities inside effect arithmetic are `ℚ`.
* A JS `throw new Error(...)` becomes `Except DMXError` with a constructor
  tagging the thrown message.
* `this.emit(...)` calls are returned as an explicit `List DMXEvent`.
* Each `setInterval` callback body is modelled as a pure per-tick function
  (`fadeTick`, `chaseTick`, `strobeTick`) of the effect record, the closure
  variables it captures, and the current time; the returned `TickOut` records
  the batch passed to `setChannels` (`none` when the tick performs no write)
  and whether the callback called `clearInterval`.
-/

namespace DMX

/-- JS `Math.round`: round half toward positive infinity,
`Math.round(x) = ⌊x + 1/2⌋`. -/
def jsRound (q : ℚ) : ℤ := ⌊q + 1/2⌋

/-- JS array read `l[i]`: out-of-range reads give `undefined`; every use in the
source reads in range, so the model defaults to `0`. -/
def jsGet (l : List ℤ) (i : ℤ) : ℤ :=
  if 0 ≤ i then l.getD i.toNat 0 else 0

/-- Association-list lookup, mirroring `Map.get`. -/
def mapGet {α : Type} : List (String × α) → String → Option α
  | [], _ => none
  | (k, v) :: rest, key => if k = key then some v else mapGet rest key

/-- Association-list insert/overwrite, mirroring `Map.set`. -/
def mapSet {α : Type} (m : List (String × α)) (k : String) (v : α) :
    List (String × α) :=
  (k, v) :: m.filter (fun p => p.1 ≠ k)

/-- `Set.add`: no duplicates. -/
def setAdd (s : List String) (x : String) : List String :=
  if x ∈ s then s else s ++ [x]

/-- `Set.delete`. -/
def setDelete (s : List String) (x : String) : List String :=
  s.filter (fun y => y ≠ x)

/-- A universe record (`connectUniverse`, lines 69–77). -/
structure Universe where
  id : String
  adapterId : String
  channels : List ℤ
  status : String
  lastUpdate : ℕ
deriving DecidableEq, Repr

/-- The `type` field of an effect record. -/
inductive EffectKind
  | FADE
  | CHASE
  | STROBE
deriving DecidableEq, Repr

/-- An effect record; the union of the fields the three `start*` methods store.
Fields a given kind does not store keep their defaults (in JS they are simply
absent; none of them is ever read for that kind). -/
structure Effect where
  id : String
  type : EffectKind
  universeId : String
  channels : List ℤ := []
  channelGroups : List (List ℤ) := []
  targetValue : ℤ := 0
  duration : ℚ := 0
  startTime : ℚ := 0
  startValues : List ℤ := []
  running : Bool := true
deriving DecidableEq, Repr

/-- A fixture record (`setFixtureMapping`, lines 174–183). -/
structure Fixture where
  id : String
  name : String
  universeId : String
  startChannel : ℤ
  channels : ℤ
  currentValues : List ℤ
deriving DecidableEq, Repr

/-- A scene record (`saveScene`, lines 249–254): `data` maps universe id to a
channel→value mapping, kept as an ordered entry list (`Object.entries` order). -/
structure Scene where
  id : String
  name : String
  data : List (String × List (ℤ × ℤ))
deriving DecidableEq, Repr

/-- Errors thrown by the controller, tagging the `throw new Error(...)` sites. -/
inductive DMXError
  | UniverseNotFound (universeId : String)
  | AdapterNotFound (adapterId : String)
  | FixtureNotFound (fixtureId : String)
  | SceneNotFound (sceneId : String)
  | ChannelOutOfRange
  | ValueOutOfRange
deriving DecidableEq, Repr

/-- Events `emit`ted by the controller. -/
inductive DMXEvent
  | channelChanged (universeId : String) (channel value : ℤ)
  | channelsChanged (universeId : String) (updates : List (ℤ × ℤ))
  | fixtureAdded (fixtureId : String)
  | fixtureControlled (fixtureId : String)
  | sceneSaved (sceneId : String)
  | sceneLoaded (sceneId : String)
  | fadeStarted (effectId : String)
  | chaseStarted (effectId : String)
  | strobeStarted (effectId : String)
  | effectsStopped (universeId : Option String)
  | universeConnected (universeId : String)
  | universeDisconnected (universeId : String)
deriving DecidableEq, Repr

/-- The mutable state of a `DMXController` instance. -/
structure DMXController where
  universes : List (String × Universe) := []
  fixtures : List (String × Fixture) := []
  scenes : List (String × Scene) := []
  effects : List (String × Effect) := []
  activeEffects : List String := []
  dmxAdapters : List String := []
deriving DecidableEq, Repr

/-- `connectUniverse(universeId, adapterId)`: fails when the adapter is
unknown, otherwise registers a fresh 512-channel zeroed universe. -/
def connectUniverse (st : DMXController) (universeId adapterId : String)
    (now : ℕ) : Except DMXError (DMXController × Universe × List DMXEvent) :=
  if adapterId ∈ st.dmxAdapters then
    let u : Universe :=
      { id := universeId, adapterId := adapterId,
        channels := List.replicate 512 0, status := "CONNECTED",
        lastUpdate := now }
    .ok ({ st with universes := mapSet st.universes universeId u }, u,
         [.universeConnected universeId])
  else .error (.AdapterNotFound adapterId)

/-- `setChannel(universeId, channel, value)` (lines 96–127). -/
def setChannel (st : DMXController) (universeId : String) (channel value : ℤ)
    (now : ℕ) : Except DMXError (DMXController × List DMXEvent) :=
  match mapGet st.universes universeId with
  | none => .error (.UniverseNotFound universeId)
  | some u =>
    if channel < 1 ∨ channel > 512 then .error .ChannelOutOfRange
    else if value < 0 ∨ value > 255 then .error .ValueOutOfRange
    else
      let u' := { u with channels := u.channels.set (channel - 1).toNat value,
                         lastUpdate := now }
      .ok ({ st with universes := mapSet st.universes universeId u' },
           [.channelChanged universeId channel value])

/-- The entry loop of `setChannels` (lines 141–148): applies the valid entries
in order, skipping invalid ones, and collects the applied updates. -/
def applyChannelEntries : List ℤ → List (ℤ × ℤ) → List ℤ × List (ℤ × ℤ)
  | chans, [] => (chans, [])
  | chans, (ch, v) :: rest =>
    if 1 ≤ ch ∧ ch ≤ 512 ∧ 0 ≤ v ∧ v ≤ 255 then
      let out := applyChannelEntries (chans.set (ch - 1).toNat v) rest
      (out.1, (ch, v) :: out.2)
    else applyChannelEntries chans rest

/-- `setChannels(universeId, channels)` (lines 134–162): batch write; returns
the new state, the applied count (`updatedCount`), and the emitted events. -/
def setChannels (st : DMXController) (universeId : String)
    (entries : List (ℤ × ℤ)) (now : ℕ) :
    Except DMXError (DMXController × ℕ × List DMXEvent) :=
  match mapGet st.universes universeId with
  | none => .error (.UniverseNotFound universeId)
  | some u =>
    let out := applyChannelEntries u.channels entries
    let u' := { u with channels := out.1, lastUpdate := now }
    .ok ({ st with universes := mapSet st.universes universeId u' },
         out.2.length, [.channelsChanged universeId out.2])

/-- `setFixtureMapping(universeId, fixtureName, startChannel, channels)`
(lines 172–194): registers the fixture. Note: the method never looks up
`universeId` in `this.universes`; it cannot fail. -/
def setFixtureMapping (st : DMXController) (universeId fixtureName : String)
    (startChannel channelCount : ℤ) :
    DMXController × Fixture × List DMXEvent :=
  let f : Fixture :=
    { id := universeId ++ "-" ++ fixtureName, name := fixtureName,
      universeId := universeId, startChannel := startChannel,
      channels := channelCount,
      currentValues := List.replicate channelCount.toNat 0 }
  ({ st with fixtures := mapSet st.fixtures f.id f }, f, [.fixtureAdded f.id])

/-- `controlFixture(fixtureId, values)` (lines 210–240): builds a channel map
keyed by `fixture.startChannel - 1 + i` (an array index used as a channel
number) and hands it to `setChannels`. -/
def controlFixture (st : DMXController) (fixtureId : String) (values : List ℤ)
    (now : ℕ) : Except DMXError (DMXController × List DMXEvent) :=
  match mapGet st.fixtures fixtureId with
  | none => .error (.FixtureNotFound fixtureId)
  | some f =>
    match mapGet st.universes f.universeId with
    | none => .error (.UniverseNotFound f.universeId)
    | some _ =>
      let entries := values.enum.map
        (fun p => (f.startChannel - 1 + (p.1 : ℤ), p.2))
      match setChannels st f.universeId entries now with
      | .error e => .error e
      | .ok (st', _, evs) =>
        let f' := { f with currentValues := values }
        .ok ({ st' with fixtures := mapSet st'.fixtures fixtureId f' },
             evs ++ [.fixtureControlled fixtureId])

/-- `saveScene(name, sceneData)` (lines 247–265): stores the caller-supplied
`sceneData` verbatim under a generated id; no channel state is read. -/
def saveScene (st : DMXController) (name : String)
    (sceneData : List (String × List (ℤ × ℤ))) (now : ℕ) :
    DMXController × Scene × List DMXEvent :=
  let sc : Scene := { id := "scene-" ++ toString now, name := name,
                      data := sceneData }
  ({ st with scenes := mapSet st.scenes sc.id sc }, sc, [.sceneSaved sc.id])

/-- The entry loop of `loadScene` (lines 280–282): applies each universe
entry with `setChannels`; a thrown error propagates (the `catch` at line 288
rethrows), aborting the remaining entries. -/
def applySceneEntries :
    DMXController → ℕ → List (String × List (ℤ × ℤ)) →
    Except DMXError DMXController
  | st, _, [] => .ok st
  | st, now, (uid, chans) :: rest =>
    match setChannels st uid chans now with
    | .error e => .error e
    | .ok (st', _, _) => applySceneEntries st' now rest

/-- `loadScene(sceneId)` (lines 272–292). -/
def loadScene (st : DMXController) (sceneId : String) (now : ℕ) :
    Except DMXError (DMXController × List DMXEvent) :=
  match mapGet st.scenes sceneId with
  | none => .error (.SceneNotFound sceneId)
  | some sc =>
    match applySceneEntries st now sc.data with
    | .error e => .error e
    | .ok st' => .ok (st', [.sceneLoaded sc.id])

/-- The same `loadScene` entry loop, keeping the controller state alongside
the outcome. In the source the loop mutates `this.universes` in place, so
when `setChannels` throws mid-scene the writes already applied persist even
though the caller sees the rethrown error; `applySceneEntries` above models
only the returned value (`Except`), this variant additionally returns the
state as it stands when the loop stops. A failing `setChannels` call itself
writes nothing (it throws on the universe lookup, before any write). -/
def applySceneEntriesState :
    DMXController → ℕ → List (String × List (ℤ × ℤ)) →
    DMXController × Option DMXError
  | st, _, [] => (st, none)
  | st, now, (uid, chans) :: rest =>
    match setChannels st uid chans now with
    | .error e => (st, some e)
    | .ok (st', _, _) => applySceneEntriesState st' now rest

/-- `loadScene` with the persisted state alongside the outcome: for an
unknown scene id the throw happens before any write, and otherwise the
entry loop runs as in `applySceneEntriesState`. -/
def loadSceneState (st : DMXController) (sceneId : String) (now : ℕ) :
    DMXController × Option DMXError :=
  match mapGet st.scenes sceneId with
  | none => (st, some (.SceneNotFound sceneId))
  | some sc => applySceneEntriesState st now sc.data

/-- `startFade(universeId, channels, targetValue, duration)` (lines 301–350):
checks the universe, records per-channel start values, registers the effect
and schedules the 50ms interval. No parameter validation is performed. -/
def startFade (st : DMXController) (universeId : String) (channels : List ℤ)
    (targetValue : ℤ) (duration : ℚ) (now : ℕ) :
    Except DMXError (DMXController × String × List DMXEvent) :=
  match mapGet st.universes universeId with
  | none => .error (.UniverseNotFound universeId)
  | some u =>
    let effectId := "fade-" ++ toString now
    let e : Effect :=
      { id := effectId, type := .FADE, universeId := universeId,
        channels := channels, targetValue := targetValue,
        duration := duration, startTime := (now : ℚ),
        startValues := channels.map (fun ch => jsGet u.channels (ch - 1)) }
    .ok ({ st with effects := mapSet st.effects effectId e,
                   activeEffects := setAdd st.activeEffects effectId },
         effectId, [.fadeStarted effectId])

/-- `startChase(universeId, channelGroups, speed)` (lines 358–404): registers
the effect and schedules the interval. Note: the universe is never looked up
and no parameters are validated; the call cannot fail. -/
def startChase (st : DMXController) (universeId : String)
    (channelGroups : List (List ℤ)) (now : ℕ) :
    DMXController × String × List DMXEvent :=
  let effectId := "chase-" ++ toString now
  let e : Effect :=
    { id := effectId, type := .CHASE, universeId := universeId,
      channelGroups := channelGroups, running := true }
  ({ st with effects := mapSet st.effects effectId e,
             activeEffects := setAdd st.activeEffects effectId },
   effectId, [.chaseStarted effectId])

/-- `startStrobe(universeId, channels, frequency, duration)` (lines 413–457):
registers the effect and schedules the interval. The universe is never looked
up and no parameters are validated; the call cannot fail. The `duration` is
captured only by the interval closure (`none` models the default `Infinity`),
so it is passed to `strobeTick` rather than stored on the record. -/
def startStrobe (st : DMXController) (universeId : String)
    (channels : List ℤ) (now : ℕ) :
    DMXController × String × List DMXEvent :=
  let effectId := "strobe-" ++ toString now
  let e : Effect :=
    { id := effectId, type := .STROBE, universeId := universeId,
      channels := channels, running := true, startTime := (now : ℚ) }
  ({ st with effects := mapSet st.effects effectId e,
             activeEffects := setAdd st.activeEffects effectId },
   effectId, [.strobeStarted effectId])

/-- `stopEffect(effectId)` (lines 486–498): sets `effect.running = false` and
removes the id from `activeEffects`; a no-op for an unknown id. -/
def stopEffect (st : DMXController) (effectId : String) : DMXController :=
  match mapGet st.effects effectId with
  | none => st
  | some e =>
    { st with effects := mapSet st.effects effectId { e with running := false },
              activeEffects := setDelete st.activeEffects effectId }

/-- `stopAllEffects(universeId?)` (lines 463–480): sets `running = false` on
every active effect (optionally filtered to one universe) and removes it from
`activeEffects`. -/
def stopAllEffects (st : DMXController) (universeId : Option String) :
    DMXController :=
  st.activeEffects.foldl
    (fun s eid =>
      match mapGet s.effects eid with
      | none => s
      | some e =>
        if universeId = none ∨ universeId = some e.universeId then
          { s with
              effects := mapSet s.effects eid { e with running := false },
              activeEffects := setDelete s.activeEffects eid }
        else s)
    st

/-- `disconnectUniverse(universeId)` (lines 535–550): stops the universe's
effects and marks it DISCONNECTED (the record stays in the map). -/
def disconnectUniverse (st : DMXController) (universeId : String) :
    DMXController :=
  let st1 := stopAllEffects st (some universeId)
  match mapGet st1.universes universeId with
  | none => st1
  | some u =>
    let u' : Universe := { u with status := "DISCONNECTED" }
    { st1 with universes := mapSet st1.universes universeId u' }

/-- A channel array handed to a caller. JS arrays and Buffers are reference
values: `getUniverseStatus` returns the universe's `channels` array object
itself (line 514, `channels: universe.channels`), while `getDMXBuffer`
allocates a fresh `Buffer` and copies into it (lines 564–569). `ref` models
the former (an alias of the store), `copy` the latter (a fresh value). -/
inductive ChannelsView
  | ref (universeId : String)
  | copy (values : List ℤ)
deriving DecidableEq, Repr

/-- Dereference a `ChannelsView` against the controller state at read time:
a `ref` reads whatever the universe's channel array currently holds. -/
def readView (st : DMXController) : ChannelsView → List ℤ
  | .ref uid =>
    match mapGet st.universes uid with
    | some u => u.channels
    | none => []
  | .copy vs => vs

/-- The object returned by `getUniverseStatus` (lines 511–520). -/
structure UniverseStatus where
  id : String
  status : String
  channelsView : ChannelsView
  lastUpdate : ℕ
  fixtures : ℕ
  activeEffects : ℕ
deriving DecidableEq, Repr

/-- `getFixtures(universeId)` (lines 201–203). -/
def getFixtures (st : DMXController) (universeId : String) : List Fixture :=
  (st.fixtures.map (fun p => p.2)).filter (fun f => f.universeId = universeId)

/-- `getUniverseStatus(universeId)` (lines 505–521): returns `null` (`none`)
for an unknown universe, otherwise a status object whose `channels` field is
the live channel array (no copy is taken). -/
def getUniverseStatus (st : DMXController) (universeId : String) :
    Option UniverseStatus :=
  match mapGet st.universes universeId with
  | none => none
  | some u =>
    some { id := u.id, status := u.status,
           channelsView := .ref universeId,
           lastUpdate := u.lastUpdate,
           fixtures := (getFixtures st universeId).length,
           activeEffects :=
             (st.activeEffects.filter (fun eid =>
               match mapGet st.effects eid with
               | some e => e.universeId = universeId
               | none => false)).length }

/-- `getDMXBuffer(universeId)` (lines 557–572): a fresh 513-byte buffer,
byte 0 the start code `0x00`, byte `i+1` a copy of `universe.channels[i]`
for `i = 0..511`. -/
def getDMXBuffer (st : DMXController) (universeId : String) :
    Except DMXError (List ℤ) :=
  match mapGet st.universes universeId with
  | none => .error (.UniverseNotFound universeId)
  | some u =>
    .ok (0 :: (List.range 512).map (fun i => jsGet u.channels (Int.ofNat i)))

/-- `deleteScene(sceneId)` (lines 586–592). -/
def deleteScene (st : DMXController) (sceneId : String) :
    DMXController × Bool :=
  match mapGet st.scenes sceneId with
  | none => (st, false)
  | some _ =>
    ({ st with scenes := st.scenes.filter (fun p => p.1 ≠ sceneId) }, true)

/-- What one `setInterval` callback run did: the batch it passed to
`setChannels` (`none` when it returned without writing), and whether it
called `clearInterval`. -/
structure TickOut where
  writes : Option (List (ℤ × ℤ))
  cleared : Bool
deriving DecidableEq, Repr

/-- The fade interval body (lines 324–342): computes
`progress = min(elapsed / duration, 1)` and writes
`round(startVal + (targetValue - startVal) * progress)` to every channel,
then clears the interval once `progress >= 1`. It never reads
`effect.running`. -/
def fadeTick (e : Effect) (now : ℚ) : TickOut :=
  let elapsed : ℚ := now - e.startTime
  let progress : ℚ := min (elapsed / e.duration) 1
  let updates := (e.channels.zip e.startValues).map
    (fun p => (p.1, jsRound ((p.2 : ℚ) + ((e.targetValue : ℚ) - (p.2 : ℚ)) * progress)))
  { writes := some updates, cleared := decide (1 ≤ progress) }

/-- The chase interval body (lines 375–396): if `effect.running` is false it
clears the interval and returns without writing; otherwise it writes 0 to
every channel of every group and 255 to the channels of group
`step % channelGroups.length`. -/
def chaseTick (e : Effect) (step : ℕ) : TickOut :=
  if e.running = false then { writes := none, cleared := true }
  else
    let allChannels := e.channelGroups.flatten
    let offs := allChannels.map (fun ch => (ch, (0 : ℤ)))
    let ons := (e.channelGroups.getD (step % e.channelGroups.length) []).map
      (fun ch => (ch, (255 : ℤ)))
    { writes := some (offs ++ ons), cleared := false }

/-- The strobe interval body (lines 432–449): clears the interval once
`elapsed > duration` (never, when `duration` is the default `Infinity`,
modelled `none`); otherwise writes 255 or 0 to every channel depending on the
`isOn` closure flag. It never reads `effect.running`. -/
def strobeTick (e : Effect) (strobeDuration : Option ℚ) (isOn : Bool)
    (now : ℚ) : TickOut :=
  let elapsed : ℚ := now - e.startTime
  match strobeDuration with
  | some d =>
    if d < elapsed then { writes := none, cleared := true }
    else
      { writes := some (e.channels.map
          (fun ch => (ch, if isOn then (255 : ℤ) else 0))), cleared := false }
  | none =>
    { writes := some (e.channels.map
        (fun ch => (ch, if isOn then (255 : ℤ) else 0))), cleared := false }

/-- One scheduled tick of an effect, dispatched by kind; `step`, `isOn` and
`strobeDuration` are the closure variables of the respective interval. -/
def effectTick (e : Effect) (now : ℚ) (step : ℕ) (strobeDuration : Option ℚ)
    (isOn : Bool) : TickOut :=
  match e.type with
  | .FADE => fadeTick e now
  | .CHASE => chaseTick e step
  | .STROBE => strobeTick e strobeDuration isOn now

/-! Supporting definitions for the claim theorems: named intermediate
states and records, and concrete controller states used as inputs. -/

/-- A concrete freshly-connected universe and controller, used to witness C6. -/
def c6U : Universe :=
  { id := "u", adapterId := "enttec-1", channels := List.replicate 512 0,
    status := "CONNECTED", lastUpdate := 0 }

def c6St : DMXController := { universes := [("u", c6U)] }

/-- The universe record as left by a `setChannels` batch: new channel array
and bumped `lastUpdate`. -/
def universeAfterBatch (U : Universe) (entries : List (ℤ × ℤ)) (now : ℕ) :
    Universe :=
  { U with channels := (applyChannelEntries U.channels entries).1,
           lastUpdate := now }

/-- A concrete universe and controller, used to witness C10. -/
def c10U : Universe :=
  { id := "u", adapterId := "enttec-1", channels := List.replicate 512 0,
    status := "CONNECTED", lastUpdate := 0 }

def c10St : DMXController := { universes := [("u", c10U)] }

/-- The concrete fade of the spec example: channel 1, start value 0,
target 200, duration 100. -/
def c5E : Effect :=
  { id := "fade-0", type := .FADE, universeId := "u", channels := [1],
    targetValue := 200, duration := 100, startTime := 0,
    startValues := [0] }

/-- The universe record as left by a single `setChannel` write. -/
def universeAfterSet (U : Universe) (ch v : ℤ) (now : ℕ) : Universe :=
  { U with channels := U.channels.set (ch - 1).toNat v, lastUpdate := now }

/-- The full snapshot of a channel array as a `{channel: value}` entry list:
entry `i` (counting from offset `k`) is `(k + i + 1, l[i])`. With `k = 0`
this is the caller-side capture that the spec's `save` describes; the source
`saveScene` itself never builds one. -/
def fullSnapshot : ℕ → List ℤ → List (ℤ × ℤ)
  | _, [] => []
  | k, v :: tl => ((k : ℤ) + 1, v) :: fullSnapshot (k + 1) tl

/-- The C4 concrete states: a universe whose channel 1 currently holds 7. -/
def c4U : Universe :=
  { id := "u", adapterId := "enttec-1",
    channels := (List.replicate 512 0).set 0 7, status := "CONNECTED",
    lastUpdate := 0 }

def c4St : DMXController := { universes := [("u", c4U)] }

/-- Saving a scene that lists universe `"u"` — but, as `saveScene`'s
signature forces, with caller-supplied data (here: an empty mapping); the
method reads no channel state. -/
def c4StSaved : DMXController := (saveScene c4St "s1" [("u", [])] 10).1

def c4StMut : DMXController :=
  match setChannel c4StSaved "u" 1 255 11 with
  | .ok (s, _) => s
  | .error _ => c4StSaved

def c4StLoaded : DMXController :=
  match loadScene c4StMut "scene-10" 12 with
  | .ok (s, _) => s
  | .error _ => c4StMut

/-- The C7 concrete scene: its first entry references a universe that is
absent from the registry, its second entry an existing one. -/
def c7U : Universe :=
  { id := "u", adapterId := "enttec-1", channels := List.replicate 512 0,
    status := "CONNECTED", lastUpdate := 0 }

def c7Scene : Scene :=
  { id := "s", name := "two", data := [("ghost", [(1, 5)]), ("u", [(2, 9)])] }

def c7St : DMXController :=
  { universes := [("u", c7U)], scenes := [("s", c7Scene)] }

/-- A C7 scene whose missing universe sits in the middle: one entry before
it (for the existing universe `"u"`) and one after. -/
def c7SceneMid : Scene :=
  { id := "m", name := "mid",
    data := [("u", [(1, 42)]), ("ghost", [(1, 5)]), ("u", [(2, 9)])] }

def c7StMid : DMXController :=
  { universes := [("u", c7U)], scenes := [("m", c7SceneMid)] }

/-- The empty controller: no universes are connected. -/
def c3St : DMXController := {}

/-- The effect record `startFade` builds (lines 309–318). -/
def fadeEffect (uid : String) (channels : List ℤ) (tv : ℤ) (dur : ℚ)
    (now : ℕ) (U : Universe) : Effect :=
  { id := "fade-" ++ toString now, type := .FADE, universeId := uid,
    channels := channels, targetValue := tv, duration := dur,
    startTime := (now : ℚ),
    startValues := channels.map (fun ch => jsGet U.channels (ch - 1)) }

/-- The C8 concrete state: one connected universe. -/
def c8U : Universe :=
  { id := "u", adapterId := "enttec-1", channels := List.replicate 512 0,
    status := "CONNECTED", lastUpdate := 0 }

def c8St : DMXController := { universes := [("u", c8U)] }

def c8After : DMXController :=
  match startFade c8St "u" [] 0 0 5 with
  | .ok (s, _, _) => s
  | .error _ => c8St

def c9U : Universe :=
  { id := "u", adapterId := "enttec-1", channels := List.replicate 512 0,
    status := "CONNECTED", lastUpdate := 0 }

def c9St : DMXController := { universes := [("u", c9U)] }

def c9StMut : DMXController :=
  match setChannel c9St "u" 1 255 1 with
  | .ok (s, _) => s
  | .error _ => c9St

def c1U : Universe :=
  { id := "u", adapterId := "enttec-1", channels := List.replicate 512 0,
    status := "CONNECTED", lastUpdate := 0 }

def c1St : DMXController := { universes := [("u", c1U)] }

/-- A fade from 0 to 200 on channel 1, started at time 0. -/
def c1Started : DMXController :=
  match startFade c1St "u" [1] 200 100 0 with
  | .ok (s, _, _) => s
  | .error _ => c1St

/-- The state right after `stopEffect("fade-0")` returns. -/
def c1Stopped : DMXController := stopEffect c1Started "fade-0"

/-- A chase effect already flagged stopped, for contrast. -/
def c1ChaseStopped : Effect :=
  { id := "chase-1", type := .CHASE, universeId := "u",
    channelGroups := [[1]], running := false }

/-- An infinite strobe effect already flagged stopped. -/
def c1StrobeStopped : Effect :=
  { id := "strobe-1", type := .STROBE, universeId := "u", channels := [1],
    startTime := 0, running := false }

/-- The fade effect record as it stands right after `stopEffect` returns:
identical to the started record except `running := false`. -/
def c1FadeE : Effect :=
  { id := "fade-0", type := .FADE, universeId := "u", channels := [1],
    targetValue := 200, duration := 100, startTime := 0,
    startValues := [0], running := false }

def c2U : Universe :=
  { id := "u", adapterId := "enttec-1", channels := List.replicate 512 0,
    status := "CONNECTED", lastUpdate := 0 }

def c2St0 : DMXController := { universes := [("u", c2U)] }

/-- Fixture `"u-fx"` defined at start channel 2 (3 channels wide). -/
def c2St : DMXController := (setFixtureMapping c2St0 "u" "fx" 2 3).1

/-- Fixture `"u-g"` defined at start channel 1. -/
def c2StB : DMXController := (setFixtureMapping c2St0 "u" "g" 1 2).1

def c2After : DMXController :=
  match controlFixture c2St "u-fx" [100] 5 with
  | .ok (s, _) => s
  | .error _ => c2St

/-! Section: Helper lemmas about the map/store primitives -/

theorem mapGet_filter_ne {α : Type} (m : List (String × α)) (k k' : String)
    (h : k' ≠ k) : mapGet (m.filter (fun p => p.1 ≠ k)) k' = mapGet m k' := by
  induction m with
  | nil => rfl
  | cons a rest ih =>
    obtain ⟨ak, av⟩ := a
    have hred : ∀ (xs : List (String × α)),
        mapGet ((ak, av) :: xs) k' =
          if ak = k' then some av else mapGet xs k' :=
      fun xs => rfl
    by_cases hak : ak = k
    · have hne : ¬ ak = k' := fun hk2 => h (hk2.symm.trans hak)
      rw [List.filter_cons, if_neg (by simp [hak]), ih, hred, if_neg hne]
    · rw [List.filter_cons, if_pos (by simp [hak]), hred, hred]
      by_cases hk2 : ak = k'
      · rw [if_pos hk2, if_pos hk2]
      · rw [if_neg hk2, if_neg hk2, ih]

theorem mapGet_mapSet_self {α : Type} (m : List (String × α)) (k : String)
    (v : α) : mapGet (mapSet m k v) k = some v := by
  simp [mapSet, mapGet]

theorem mapGet_mapSet_ne {α : Type} (m : List (String × α)) (k k' : String)
    (v : α) (h : k' ≠ k) : mapGet (mapSet m k v) k' = mapGet m k' := by
  have hk : ¬ k = k' := fun hk => h hk.symm
  simp only [mapSet, mapGet, hk, if_false]
  exact mapGet_filter_ne m k k' h

theorem applyChannelEntries_nil (chans : List ℤ) :
    applyChannelEntries chans [] = (chans, []) := rfl

theorem applyChannelEntries_length (chans : List ℤ)
    (entries : List (ℤ × ℤ)) :
    (applyChannelEntries chans entries).1.length = chans.length := by
  induction entries generalizing chans with
  | nil => rfl
  | cons p rest ih =>
    obtain ⟨ch, v⟩ := p
    by_cases hvalid : 1 ≤ ch ∧ ch ≤ 512 ∧ 0 ≤ v ∧ v ≤ 255
    · simp only [applyChannelEntries, if_pos hvalid]
      rw [ih]
      exact List.length_set _ _ _
    · simp only [applyChannelEntries, if_neg hvalid]
      exact ih chans

theorem applyChannelEntries_all_invalid (chans : List ℤ)
    (entries : List (ℤ × ℤ))
    (h : ∀ p ∈ entries, ¬ (1 ≤ p.1 ∧ p.1 ≤ 512 ∧ 0 ≤ p.2 ∧ p.2 ≤ 255)) :
    applyChannelEntries chans entries = (chans, []) := by
  induction entries with
  | nil => rfl
  | cons p rest ih =>
    obtain ⟨ch, v⟩ := p
    have hp := h (ch, v) (List.mem_cons_self _ _)
    simp only [applyChannelEntries, if_neg hp]
    exact ih (fun q hq => h q (List.mem_cons_of_mem _ hq))

theorem range_map_jsGet (l : List ℤ) :
    (List.range l.length).map (fun i => jsGet l (Int.ofNat i)) = l := by
  apply List.ext_getElem
  · simp
  · intro i h1 h2
    simp only [List.getElem_map, List.getElem_range]
    have h0 : (0 : ℤ) ≤ Int.ofNat i := Int.ofNat_nonneg i
    simp [jsGet, h0, List.getD_eq_getElem?_getD, List.getElem?_eq_getElem h2]

/-! Section: C6: frame encoding -/

/-- C6 (confirmed). For every connected universe (with the 512-length
channel-array invariant), `getDMXBuffer` returns a byte sequence of length
exactly 513 whose byte 0 is the DMX start code 0 and whose byte `i + 1`
equals channel `i + 1`'s current value, for `i = 0..511`; a universe with all
channels at 0 yields 513 zero bytes; an unknown universe yields
`UniverseNotFound`. -/
theorem c6_encode_frame (st : DMXController) (uid : String) (U : Universe)
    (h : mapGet st.universes uid = some U)
    (hlen : U.channels.length = 512) :
    getDMXBuffer st uid = .ok (0 :: U.channels)
    ∧ (0 :: U.channels).length = 513
    ∧ (0 :: U.channels).getD 0 0 = 0
    ∧ (∀ i : ℕ, i < 512 →
        (0 :: U.channels).getD (i + 1) 0 = U.channels.getD i 0)
    ∧ (U.channels = List.replicate 512 0 →
        getDMXBuffer st uid = .ok (List.replicate 513 0))
    ∧ (∀ uid' : String, mapGet st.universes uid' = none →
        getDMXBuffer st uid' = .error (.UniverseNotFound uid')) := by
  have hbuf : getDMXBuffer st uid = .ok (0 :: U.channels) := by
    simp only [getDMXBuffer, h]
    rw [← hlen, range_map_jsGet]
  refine ⟨hbuf, by simp [hlen], rfl, ?_, ?_, ?_⟩
  · intro i _
    simp [List.getD]
  · intro hz
    rw [hbuf, hz]
    rfl
  · intro uid' h'
    simp [getDMXBuffer, h']

theorem c6U_channels_length : c6U.channels.length = 512 := by
  rw [show c6U.channels = List.replicate 512 0 from rfl, List.length_replicate]

/-- C6 witness: a concrete freshly-connected universe. -/
theorem c6_encode_frame_witness :
    mapGet c6St.universes "u" = some c6U
    ∧ c6U.channels.length = 512
    ∧ getDMXBuffer c6St "u" = .ok (0 :: c6U.channels) :=
  ⟨rfl, c6U_channels_length,
   (c6_encode_frame c6St "u" c6U rfl c6U_channels_length).1⟩

/-! Section: C10: `setChannels` always touches `lastUpdate` and emits -/

/-- C10 (confirmed). For every connected universe, a `setChannels` batch
call succeeds, sets the universe's `lastUpdate` to the call time, and emits
exactly one aggregated `channelsChanged` event whose update list has the
returned applied count — and when every entry of the batch is invalid the
applied count is 0 and the channel array is unchanged while `lastUpdate`
still advances. -/
theorem c10_setChannels_always_touches (st : DMXController) (uid : String)
    (entries : List (ℤ × ℤ)) (now : ℕ) (U : Universe)
    (h : mapGet st.universes uid = some U) :
    ∃ (st' : DMXController) (n : ℕ) (updates : List (ℤ × ℤ)),
      setChannels st uid entries now =
        .ok (st', n, [.channelsChanged uid updates])
      ∧ (mapGet st'.universes uid).map (fun u => u.lastUpdate) = some now
      ∧ n = updates.length
      ∧ ((∀ p ∈ entries, ¬ (1 ≤ p.1 ∧ p.1 ≤ 512 ∧ 0 ≤ p.2 ∧ p.2 ≤ 255)) →
          n = 0 ∧ (mapGet st'.universes uid).map (fun u => u.channels) =
            some U.channels) := by
  have hsc : setChannels st uid entries now = .ok
      ({ st with universes := mapSet st.universes uid (universeAfterBatch U entries now) },
       (applyChannelEntries U.channels entries).2.length,
       [.channelsChanged uid (applyChannelEntries U.channels entries).2]) := by
    simp only [setChannels, h, universeAfterBatch]
  refine ⟨_, _, _, hsc, ?_, rfl, ?_⟩
  · simp [mapGet_mapSet_self, universeAfterBatch]
  · intro hall
    have happ := applyChannelEntries_all_invalid U.channels entries hall
    exact ⟨by simp [happ],
      by simp [mapGet_mapSet_self, universeAfterBatch, happ]⟩

/-- C10 witness: a batch whose every entry is invalid (channel 0,
channel 600, value 999) still bumps `lastUpdate` to the call time. -/
theorem c10_setChannels_always_touches_witness :
    mapGet c10St.universes "u" = some c10U
    ∧ ∃ (st' : DMXController) (n : ℕ) (updates : List (ℤ × ℤ)),
      setChannels c10St "u" [(0, 5), (600, 5), (3, 999)] 105 =
          .ok (st', n, [.channelsChanged "u" updates])
      ∧ (mapGet st'.universes "u").map (fun u => u.lastUpdate) = some 105
      ∧ n = updates.length
      ∧ ((∀ p ∈ [((0 : ℤ), (5 : ℤ)), (600, 5), (3, 999)],
            ¬ (1 ≤ p.1 ∧ p.1 ≤ 512 ∧ 0 ≤ p.2 ∧ p.2 ≤ 255)) →
          n = 0 ∧ (mapGet st'.universes "u").map (fun u => u.channels) =
            some c10U.channels) :=
  ⟨rfl, c10_setChannels_always_touches c10St "u" [(0, 5), (600, 5), (3, 999)]
    105 c10U rfl⟩

/-! Section: C5: fade interpolation formula and exact endpoint -/

theorem jsRound_intCast (t : ℤ) : jsRound (t : ℚ) = t := by
  unfold jsRound
  rw [Int.floor_int_add]
  norm_num

theorem zip_map_pair_const (a b : List ℤ) (c : ℤ) (h : a.length ≤ b.length) :
    (a.zip b).map (fun p => (p.1, c)) = a.map (fun ch => (ch, c)) := by
  induction a generalizing b with
  | nil => rfl
  | cons x xs ih =>
    cases b with
    | nil => simp at h
    | cons y ys =>
      simp only [List.zip_cons_cons, List.map_cons]
      rw [ih ys (by simpa using h)]

theorem getD_set_self (l : List ℤ) (i : ℕ) (v : ℤ) (h : i < l.length) :
    (l.set i v).getD i 0 = v := by
  rw [List.getD_eq_getElem?_getD, List.getElem?_set_self h]
  rfl

theorem getD_set_ne (l : List ℤ) (i j : ℕ) (v : ℤ) (h : i ≠ j) :
    (l.set i v).getD j 0 = l.getD j 0 := by
  rw [List.getD_eq_getElem?_getD, List.getD_eq_getElem?_getD,
    List.getElem?_set_ne h]

/-- Applying a batch whose every entry writes the same value `v` keeps `v`
at any index that already holds `v`. -/
theorem applyChannelEntries_const_preserve (v : ℤ)
    (entries : List (ℤ × ℤ)) (hall : ∀ p ∈ entries, p.2 = v)
    (l : List ℤ) (i : ℕ) (hi : l.getD i 0 = v) :
    (applyChannelEntries l entries).1.getD i 0 = v := by
  induction entries generalizing l with
  | nil => exact hi
  | cons p rest ih =>
    obtain ⟨c, w⟩ := p
    have hw : w = v := hall (c, w) (List.mem_cons_self _ _)
    have hrest : ∀ q ∈ rest, q.2 = v :=
      fun q hq => hall q (List.mem_cons_of_mem _ hq)
    by_cases hvalid : 1 ≤ c ∧ c ≤ 512 ∧ 0 ≤ w ∧ w ≤ 255
    · simp only [applyChannelEntries, if_pos hvalid]
      apply ih hrest
      by_cases hci : (c - 1).toNat = i
      · subst hci
        by_cases hlt : (c - 1).toNat < l.length
        · rw [getD_set_self _ _ _ hlt, hw]
        · rw [List.getD_eq_getElem?_getD, List.getElem?_set,
            if_pos rfl, if_neg hlt]
          rw [List.getD_eq_getElem?_getD,
            List.getElem?_eq_none (le_of_not_lt hlt)] at hi
          exact hi
      · rw [getD_set_ne _ _ _ _ hci]
        exact hi
    · simp only [applyChannelEntries, if_neg hvalid]
      exact ih hrest l hi

/-- Applying a batch whose every entry writes the same value `v`, one of
whose entries targets the valid channel `ch`, leaves `v` at index
`ch - 1`. -/
theorem applyChannelEntries_const_value (v ch : ℤ)
    (h1 : 1 ≤ ch) (h2 : ch ≤ 512) (hv0 : 0 ≤ v) (hv255 : v ≤ 255) :
    ∀ (entries : List (ℤ × ℤ)), (∀ p ∈ entries, p.2 = v) →
      (ch, v) ∈ entries →
      ∀ (l : List ℤ), (ch - 1).toNat < l.length →
      (applyChannelEntries l entries).1.getD (ch - 1).toNat 0 = v := by
  intro entries
  induction entries with
  | nil =>
    intro _ hmem _ _
    cases hmem
  | cons p rest ih =>
    intro hall hmem l hl
    obtain ⟨c, w⟩ := p
    have hw : w = v := hall (c, w) (List.mem_cons_self _ _)
    have hrest : ∀ q ∈ rest, q.2 = v :=
      fun q hq => hall q (List.mem_cons_of_mem _ hq)
    rcases List.mem_cons.mp hmem with heq | hmem'
    · have hc : c = ch := (Prod.mk.injEq _ _ _ _ ▸ heq.symm).1
      subst hc hw
      have hvalid : 1 ≤ c ∧ c ≤ 512 ∧ 0 ≤ w ∧ w ≤ 255 := ⟨h1, h2, hv0, hv255⟩
      simp only [applyChannelEntries, if_pos hvalid]
      apply applyChannelEntries_const_preserve w rest hrest
      exact getD_set_self _ _ _ hl
    · subst hw
      by_cases hvalid : 1 ≤ c ∧ c ≤ 512 ∧ 0 ≤ w ∧ w ≤ 255
      · simp only [applyChannelEntries, if_pos hvalid]
        exact ih hrest hmem' _ (by rw [List.length_set]; exact hl)
      · simp only [applyChannelEntries, if_neg hvalid]
        exact ih hrest hmem' _ hl

/-- C5 (confirmed). For a fade effect with positive duration (and the
source invariant that `startValues` covers `channels`): every tick writes
`round(startValue + (targetValue - startValue) * progress)` with
`progress = min(elapsed / duration, 1)` to every target channel; once
`elapsed ≥ duration` the tick writes exactly `targetValue` to every channel
and clears the interval; and applying that final batch leaves any valid
target channel of a universe's channel array holding exactly
`targetValue`. -/
theorem c5_fade_formula_and_exact_endpoint (e : Effect) (now : ℚ)
    (hd : 0 < e.duration)
    (hlen : e.channels.length ≤ e.startValues.length) :
    (fadeTick e now).writes = some ((e.channels.zip e.startValues).map
      (fun p => (p.1, jsRound ((p.2 : ℚ) +
        ((e.targetValue : ℚ) - (p.2 : ℚ)) *
          min ((now - e.startTime) / e.duration) 1))))
    ∧ (e.duration ≤ now - e.startTime →
        fadeTick e now = { writes := some (e.channels.map
          (fun ch => (ch, e.targetValue))), cleared := true })
    ∧ (e.duration ≤ now - e.startTime →
        ∀ (chans : List ℤ) (ch : ℤ), ch ∈ e.channels →
          1 ≤ ch → ch ≤ 512 → 0 ≤ e.targetValue → e.targetValue ≤ 255 →
          (ch - 1).toNat < chans.length →
          (applyChannelEntries chans
              ((fadeTick e now).writes.getD [])).1.getD (ch - 1).toNat 0 =
            e.targetValue) := by
  have hfun : (fun p : ℤ × ℤ => (p.1, jsRound ((p.2 : ℚ) +
      ((e.targetValue : ℚ) - (p.2 : ℚ)) * 1))) =
      (fun p : ℤ × ℤ => (p.1, e.targetValue)) := by
    funext p
    rw [show ((p.2 : ℚ) + ((e.targetValue : ℚ) - (p.2 : ℚ)) * 1) =
      ((e.targetValue : ℚ)) from by ring, jsRound_intCast]
  have hend : ∀ (hle : e.duration ≤ now - e.startTime),
      fadeTick e now = { writes := some (e.channels.map
        (fun ch => (ch, e.targetValue))), cleared := true } := by
    intro hle
    have hprog : min ((now - e.startTime) / e.duration) 1 = 1 :=
      min_eq_right ((one_le_div hd).mpr hle)
    simp only [fadeTick, hprog, hfun, decide_eq_true_eq]
    rw [zip_map_pair_const _ _ _ hlen]
    simp
  refine ⟨rfl, hend, ?_⟩
  intro hle chans ch hmem hch1 hch2 ht0 ht255 hidx
  rw [hend hle]
  apply applyChannelEntries_const_value e.targetValue ch hch1 hch2 ht0 ht255
  · intro p hp
    obtain ⟨x, -, hx⟩ := List.mem_map.mp hp
    exact (congrArg Prod.snd hx).symm
  · exact List.mem_map_of_mem _ hmem
  · exact hidx

/-- C5 witness: sampling the example fade past its duration yields one
final write of exactly 200 to channel 1 and clears the interval. -/
theorem c5_fade_formula_and_exact_endpoint_witness :
    (0 : ℚ) < c5E.duration
    ∧ c5E.channels.length ≤ c5E.startValues.length
    ∧ fadeTick c5E 150 = { writes := some [(1, 200)], cleared := true } :=
  ⟨by norm_num [c5E], by decide,
    by
      have h := (c5_fade_formula_and_exact_endpoint c5E 150
        (by norm_num [c5E]) (by decide)).2.1 (by norm_num [c5E])
      simpa [c5E] using h⟩

/-! Section: C4: scene save / load round trip -/

theorem setChannel_ok (st : DMXController) (uid : String) (U : Universe)
    (ch v : ℤ) (now : ℕ) (h : mapGet st.universes uid = some U)
    (h1 : 1 ≤ ch) (h2 : ch ≤ 512) (h3 : 0 ≤ v) (h4 : v ≤ 255) :
    setChannel st uid ch v now = .ok
      ({ st with universes := mapSet st.universes uid (universeAfterSet U ch v now) },
       [.channelChanged uid ch v]) := by
  simp only [setChannel, h, universeAfterSet]
  rw [if_neg (by omega), if_neg (by omega)]

theorem setChannels_ok (st : DMXController) (uid : String) (U : Universe)
    (entries : List (ℤ × ℤ)) (now : ℕ)
    (h : mapGet st.universes uid = some U) :
    setChannels st uid entries now = .ok
      ({ st with universes := mapSet st.universes uid (universeAfterBatch U entries now) },
       (applyChannelEntries U.channels entries).2.length,
       [.channelsChanged uid (applyChannelEntries U.channels entries).2]) := by
  simp only [setChannels, h, universeAfterBatch]

theorem applyChannelEntries_fullSnapshot (l : List ℤ) :
    ∀ (m : List ℤ) (k : ℕ), m.length = 512 → k + l.length ≤ 512 →
      (∀ v ∈ l, 0 ≤ v ∧ v ≤ 255) →
      (applyChannelEntries m (fullSnapshot k l)).1 =
        m.take k ++ l ++ m.drop (k + l.length) := by
  induction l with
  | nil =>
    intro m k hm hk hv
    simp only [fullSnapshot, applyChannelEntries, List.nil_append,
      Nat.add_zero, List.append_nil]
    exact (List.take_append_drop k m).symm
  | cons v tl ih =>
    intro m k hm hk hv
    obtain ⟨hv0, hv255⟩ := hv v (List.mem_cons_self _ _)
    have hvrest : ∀ w ∈ tl, 0 ≤ w ∧ w ≤ 255 :=
      fun w hw => hv w (List.mem_cons_of_mem _ hw)
    have hlcons : (v :: tl).length = tl.length + 1 := rfl
    rw [hlcons] at hk
    have hvalid : 1 ≤ (k : ℤ) + 1 ∧ (k : ℤ) + 1 ≤ 512 ∧ 0 ≤ v ∧ v ≤ 255 :=
      ⟨by omega, by omega, hv0, hv255⟩
    have hidx : (((k : ℤ) + 1) - 1).toNat = k := by omega
    simp only [fullSnapshot, applyChannelEntries, if_pos hvalid, hidx]
    rw [ih (m.set k v) (k + 1) (by rw [List.length_set]; exact hm)
      (by omega) hvrest]
    have hklt : k < m.length := by omega
    have hltake : (m.take k).length = k := by
      rw [List.length_take]
      omega
    rw [List.set_eq_take_append_cons_drop, if_pos hklt]
    have h1 : (List.take k m ++ v :: List.drop (k + 1) m).take (k + 1)
        = List.take k m ++ [v] := by
      rw [show k + 1 = (List.take k m).length + 1 by rw [hltake],
        List.take_append]
      simp
    have h2 : (List.take k m ++ v :: List.drop (k + 1) m).drop
        (k + 1 + tl.length) = m.drop (k + (tl.length + 1)) := by
      rw [show k + 1 + tl.length = (List.take k m).length + (1 + tl.length) by
        rw [hltake]; ring, List.drop_append,
        show 1 + tl.length = tl.length + 1 by ring, List.drop_succ_cons,
        List.drop_drop]
      congr 1
      omega
    rw [h1, h2]
    simp [List.append_assoc]

theorem applyChannelEntries_fullSnapshot_zero (l m : List ℤ)
    (hm : m.length = 512) (hl : l.length = 512)
    (hv : ∀ v ∈ l, 0 ≤ v ∧ v ≤ 255) :
    (applyChannelEntries m (fullSnapshot 0 l)).1 = l := by
  rw [applyChannelEntries_fullSnapshot l m 0 hm (by omega) hv,
    List.take_zero, List.nil_append, Nat.zero_add,
    List.drop_eq_nil_of_le (by omega), List.append_nil]

/-- A scene with a single universe entry whose universe exists loads
successfully, batch-applying the stored entries. -/
theorem loadScene_single_ok (st : DMXController) (sid uid : String)
    (sc : Scene) (U : Universe) (entries : List (ℤ × ℤ)) (now : ℕ)
    (hsc : mapGet st.scenes sid = some sc)
    (hdata : sc.data = [(uid, entries)])
    (hU : mapGet st.universes uid = some U) :
    ∃ st3, loadScene st sid now = .ok (st3, [.sceneLoaded sc.id])
      ∧ (mapGet st3.universes uid).map (fun u => u.channels) =
          some (applyChannelEntries U.channels entries).1 := by
  refine ⟨{ st with universes := mapSet st.universes uid (universeAfterBatch U entries now) }, ?_, ?_⟩
  · simp only [loadScene, hsc, hdata, applySceneEntries,
      setChannels_ok st uid U entries now hU]
  · rw [mapGet_mapSet_self]
    rfl

/-- C4 counterexample. Channel 1 of universe `"u"` holds 7; the claim
says `save("s1",[u])` then `setChannel(u,1,255)` then `load` restores 7.
In the code `saveScene` takes caller-supplied scene data and captures
nothing, so the load leaves channel 1 at 255, not 7. -/
theorem c4_counterexample :
    (mapGet c4St.universes "u").map (fun u => jsGet u.channels 0) = some 7
    ∧ loadScene c4StMut "scene-10" 12 = .ok (c4StLoaded, [.sceneLoaded "scene-10"])
    ∧ (mapGet c4StLoaded.universes "u").map (fun u => jsGet u.channels 0) =
        some 255
    ∧ (255 : ℤ) ≠ 7 :=
  ⟨rfl, rfl, rfl, by decide⟩

theorem c4U_channels_length : c4U.channels.length = 512 := by
  rw [show c4U.channels = (List.replicate 512 (0 : ℤ)).set 0 7 from rfl,
    List.length_set, List.length_replicate]

theorem c4U_channels_bounds : ∀ v ∈ c4U.channels, 0 ≤ v ∧ v ≤ 255 := by
  intro v hv
  have hv' : v ∈ (List.replicate 512 (0 : ℤ)).set 0 7 := hv
  rcases List.mem_or_eq_of_mem_set hv' with h | h
  · have := List.eq_of_mem_replicate h
    omega
  · omega

/-- C4 (amended: `saveScene` stores the caller-supplied mapping verbatim
and never reads channel state, so the round trip holds exactly when the
caller itself passes the universe's current full 512-entry snapshot as the
scene data). Then `save`, `setChannel(u,1,255)`, `load` restores the
pre-mutation channel array. -/
theorem c4_save_verbatim_roundtrip (st : DMXController) (uid : String)
    (U : Universe) (name : String) (n1 n2 n3 : ℕ)
    (h : mapGet st.universes uid = some U)
    (hlen : U.channels.length = 512)
    (hvals : ∀ v ∈ U.channels, 0 ≤ v ∧ v ≤ 255) :
    (mapGet (saveScene st name [(uid, fullSnapshot 0 U.channels)] n1).1.scenes
        ("scene-" ++ toString n1)).map (fun sc => sc.data) =
      some [(uid, fullSnapshot 0 U.channels)]
    ∧ ∃ st2 evs2 st3 evs3,
        setChannel (saveScene st name [(uid, fullSnapshot 0 U.channels)] n1).1
            uid 1 255 n2 = .ok (st2, evs2)
        ∧ loadScene st2 ("scene-" ++ toString n1) n3 = .ok (st3, evs3)
        ∧ (mapGet st3.universes uid).map (fun u => u.channels) =
            some U.channels := by
  have hU1 : mapGet (saveScene st name
      [(uid, fullSnapshot 0 U.channels)] n1).1.universes uid = some U := h
  have hset := setChannel_ok _ uid U 1 255 n2 hU1 (by omega) (by omega)
    (by omega) (by omega)
  obtain ⟨st2, evs2, hset2, hscget, hU2⟩ :
      ∃ st2 evs2,
        setChannel (saveScene st name [(uid, fullSnapshot 0 U.channels)] n1).1
            uid 1 255 n2 = .ok (st2, evs2)
        ∧ mapGet st2.scenes ("scene-" ++ toString n1) =
            some (Scene.mk ("scene-" ++ toString n1) name
              [(uid, fullSnapshot 0 U.channels)])
        ∧ mapGet st2.universes uid = some (universeAfterSet U 1 255 n2) :=
    ⟨_, _, hset, mapGet_mapSet_self _ _ _, mapGet_mapSet_self _ _ _⟩
  obtain ⟨st3, hload, hchan⟩ := loadScene_single_ok st2
    ("scene-" ++ toString n1) uid _ (universeAfterSet U 1 255 n2)
    (fullSnapshot 0 U.channels) n3 hscget rfl hU2
  have hrestore : (applyChannelEntries (universeAfterSet U 1 255 n2).channels
      (fullSnapshot 0 U.channels)).1 = U.channels := by
    apply applyChannelEntries_fullSnapshot_zero
    · rw [show (universeAfterSet U 1 255 n2).channels =
        U.channels.set 0 255 from rfl, List.length_set]
      exact hlen
    · exact hlen
    · exact hvals
  exact ⟨by simp [saveScene, mapGet_mapSet_self], st2, evs2, st3, _, hset2,
    hload, by rw [← hrestore]; exact hchan⟩

/-- C4 witness: the round trip at the concrete universe `c4U` (channel 1
at 7), with the caller passing the real snapshot. -/
theorem c4_save_verbatim_roundtrip_witness :
    mapGet c4St.universes "u" = some c4U
    ∧ c4U.channels.length = 512
    ∧ (∀ v ∈ c4U.channels, 0 ≤ v ∧ v ≤ 255)
    ∧ ∃ st2 evs2 st3 evs3,
        setChannel (saveScene c4St "s1" [("u", fullSnapshot 0 c4U.channels)] 10).1
            "u" 1 255 11 = .ok (st2, evs2)
        ∧ loadScene st2 ("scene-" ++ toString 10) 12 = .ok (st3, evs3)
        ∧ (mapGet st3.universes "u").map (fun u => u.channels) =
            some c4U.channels :=
  ⟨rfl, c4U_channels_length, c4U_channels_bounds,
    (c4_save_verbatim_roundtrip c4St "u" c4U "s1" 10 11 12 rfl
      c4U_channels_length c4U_channels_bounds).2⟩

/-! Section: C7: scene load error handling -/

/-- Applying scene entries succeeds when every listed universe exists, and
preserves which universes exist. -/
theorem applySceneEntries_ok (now : ℕ) :
    ∀ (entries : List (String × List (ℤ × ℤ))) (st : DMXController),
      (∀ p ∈ entries, (mapGet st.universes p.1).isSome = true) →
      ∃ st', applySceneEntries st now entries = .ok st'
        ∧ ∀ k, (mapGet st'.universes k).isSome =
            (mapGet st.universes k).isSome := by
  intro entries
  induction entries with
  | nil =>
    intro st _
    exact ⟨st, rfl, fun k => rfl⟩
  | cons p rest ih =>
    intro st h
    obtain ⟨uid, chans⟩ := p
    have h1 : (mapGet st.universes uid).isSome = true :=
      h (uid, chans) (List.mem_cons_self _ _)
    obtain ⟨U, hU⟩ := Option.isSome_iff_exists.mp h1
    have hsc := setChannels_ok st uid U chans now hU
    have hpres : ∀ k, (mapGet (mapSet st.universes uid
        (universeAfterBatch U chans now)) k).isSome =
        (mapGet st.universes k).isSome := by
      intro k
      by_cases hk : k = uid
      · subst hk
        rw [mapGet_mapSet_self, hU]
        rfl
      · rw [mapGet_mapSet_ne _ _ _ _ hk]
    obtain ⟨st', hst', hpres'⟩ := ih
      { st with universes := mapSet st.universes uid (universeAfterBatch U chans now) }
      (fun q hq => by
        rw [show ({ st with universes := mapSet st.universes uid (universeAfterBatch U chans now) } : DMXController).universes =
          mapSet st.universes uid (universeAfterBatch U chans now) from rfl,
          hpres q.1]
        exact h q (List.mem_cons_of_mem _ hq))
    refine ⟨st', ?_, fun k => (hpres' k).trans (hpres k)⟩
    simp only [applySceneEntries, hsc]
    exact hst'

/-- C7 counterexample. Loading a scene whose first universe entry
references the missing universe `"ghost"` does not skip that entry and apply
the rest: `setChannels` throws, `loadScene`'s catch rethrows, and the whole
load fails with `UniverseNotFound` — the entry for the existing universe
`"u"` is never applied. -/
theorem c7_counterexample :
    mapGet c7St.universes "ghost" = none
    ∧ mapGet c7St.universes "u" = some c7U
    ∧ loadScene c7St "s" 1 = .error (.UniverseNotFound "ghost") :=
  ⟨rfl, rfl, rfl⟩

/-- The `Except` view and the state view of the entry loop compute the same
run: `applySceneEntries` returns exactly the outcome recorded by
`applySceneEntriesState`. -/
theorem applySceneEntries_eq_state (now : ℕ) :
    ∀ (entries : List (String × List (ℤ × ℤ))) (st : DMXController),
      applySceneEntries st now entries =
        match applySceneEntriesState st now entries with
        | (st', none) => .ok st'
        | (_, some e) => .error e := by
  intro entries
  induction entries with
  | nil =>
    intro st
    rfl
  | cons p rest ih =>
    intro st
    obtain ⟨uid, chans⟩ := p
    simp only [applySceneEntries, applySceneEntriesState]
    cases hsc : setChannels st uid chans now with
    | error e => rfl
    | ok out =>
      obtain ⟨st', n, evs⟩ := out
      exact ih st'

/-- Running the entry loop over `pre ++ (ghost, chans) :: post`, with every
universe of `pre` present and `ghost` absent, stops at the ghost entry: the
outcome is `UniverseNotFound ghost` and the persisted state is exactly the
state after applying the `pre` entries — nothing of the ghost entry or of
`post` is applied. -/
theorem applySceneEntriesState_abort (now : ℕ) (ghost : String)
    (chans : List (ℤ × ℤ)) (post : List (String × List (ℤ × ℤ))) :
    ∀ (pre : List (String × List (ℤ × ℤ))) (st : DMXController),
      (∀ p ∈ pre, (mapGet st.universes p.1).isSome = true) →
      mapGet st.universes ghost = none →
      applySceneEntriesState st now (pre ++ (ghost, chans) :: post) =
        ((applySceneEntriesState st now pre).1,
          some (.UniverseNotFound ghost)) := by
  intro pre
  induction pre with
  | nil =>
    intro st _ hghost
    simp only [List.nil_append, applySceneEntriesState, setChannels, hghost]
  | cons p rest ih =>
    intro st hpre hghost
    obtain ⟨uid, cs⟩ := p
    have h1 : (mapGet st.universes uid).isSome = true :=
      hpre (uid, cs) (List.mem_cons_self _ _)
    obtain ⟨U, hU⟩ := Option.isSome_iff_exists.mp h1
    have hne : ghost ≠ uid := by
      intro he
      rw [he, hU] at hghost
      cases hghost
    have hsc := setChannels_ok st uid U cs now hU
    have hpres : ∀ k, (mapGet (mapSet st.universes uid
        (universeAfterBatch U cs now)) k).isSome =
        (mapGet st.universes k).isSome := by
      intro k
      by_cases hk : k = uid
      · subst hk
        rw [mapGet_mapSet_self, hU]
        rfl
      · rw [mapGet_mapSet_ne _ _ _ _ hk]
    simp only [List.cons_append, applySceneEntriesState, hsc]
    apply ih
    · intro q hq
      rw [show ({ st with universes := mapSet st.universes uid (universeAfterBatch U cs now) } : DMXController).universes =
        mapSet st.universes uid (universeAfterBatch U cs now) from rfl,
        hpres q.1]
      exact hpre q (List.mem_cons_of_mem _ hq)
    · rw [show ({ st with universes := mapSet st.universes uid (universeAfterBatch U cs now) } : DMXController).universes =
        mapSet st.universes uid (universeAfterBatch U cs now) from rfl,
        mapGet_mapSet_ne _ _ _ _ hne]
      exact hghost

/-- The `Except` view of the same abort. -/
theorem applySceneEntries_abort (now : ℕ) (ghost : String)
    (chans : List (ℤ × ℤ)) (post : List (String × List (ℤ × ℤ)))
    (pre : List (String × List (ℤ × ℤ))) (st : DMXController)
    (hpre : ∀ p ∈ pre, (mapGet st.universes p.1).isSome = true)
    (hghost : mapGet st.universes ghost = none) :
    applySceneEntries st now (pre ++ (ghost, chans) :: post) =
      .error (.UniverseNotFound ghost) := by
  rw [applySceneEntries_eq_state,
    applySceneEntriesState_abort now ghost chans post pre st hpre hghost]

/-- C7 (amended: load fails with `SceneNotFound` for an unknown scene id
and otherwise applies the universe entries in order via `setChannels`; an
entry whose universe is missing — at any position — makes the whole load
fail with `UniverseNotFound` instead of being skipped, and the persisted
controller state at that moment is exactly the state after applying the
entries before the missing one: they stay applied, while the missing entry
and every later entry are never applied. When every listed universe exists
the load succeeds). -/
theorem c7_load_error_handling (st : DMXController) (sid : String)
    (now : ℕ) :
    (mapGet st.scenes sid = none →
      loadScene st sid now = .error (.SceneNotFound sid)
      ∧ loadSceneState st sid now = (st, some (.SceneNotFound sid)))
    ∧ (∀ (sc : Scene) (pre : List (String × List (ℤ × ℤ)))
        (ghost : String) (chans : List (ℤ × ℤ))
        (post : List (String × List (ℤ × ℤ))),
        mapGet st.scenes sid = some sc →
        sc.data = pre ++ (ghost, chans) :: post →
        (∀ p ∈ pre, (mapGet st.universes p.1).isSome = true) →
        mapGet st.universes ghost = none →
        loadScene st sid now = .error (.UniverseNotFound ghost)
        ∧ loadSceneState st sid now =
            ((applySceneEntriesState st now pre).1,
              some (.UniverseNotFound ghost)))
    ∧ (∀ sc : Scene, mapGet st.scenes sid = some sc →
        (∀ p ∈ sc.data, (mapGet st.universes p.1).isSome = true) →
        ∃ st', loadScene st sid now = .ok (st', [.sceneLoaded sc.id])
          ∧ loadSceneState st sid now = (st', none)) := by
  refine ⟨?_, ?_, ?_⟩
  · intro h
    exact ⟨by simp [loadScene, h], by simp [loadSceneState, h]⟩
  · intro sc pre ghost chans post hsc hdata hpre hghost
    constructor
    · simp only [loadScene, hsc, hdata,
        applySceneEntries_abort now ghost chans post pre st hpre hghost]
    · simp only [loadSceneState, hsc, hdata,
        applySceneEntriesState_abort now ghost chans post pre st hpre hghost]
  · intro sc hsc hall
    obtain ⟨st', hst', -⟩ := applySceneEntries_ok now sc.data st hall
    have hagree := applySceneEntries_eq_state now sc.data st
    rw [hst'] at hagree
    rcases hpair : applySceneEntriesState st now sc.data with ⟨s2, oe⟩
    rw [hpair] at hagree
    cases oe with
    | none =>
      injection hagree with h2
      refine ⟨st', by simp only [loadScene, hsc, hst'], ?_⟩
      simp only [loadSceneState, hsc, hpair, h2]
    | some e =>
      cases hagree

/-- C7 witness: the amended behavior at the concrete scene whose missing
universe sits in the middle — the entry before it is applied (channel 1 of
`"u"` persists at 42), the missing entry and the one after it are not
(channel 2 stays 0), and the load returns `UniverseNotFound`. -/
theorem c7_load_error_handling_witness :
    mapGet c7StMid.scenes "m" = some c7SceneMid
    ∧ c7SceneMid.data =
        [("u", [(1, 42)])] ++ ("ghost", [(1, 5)]) :: [("u", [(2, 9)])]
    ∧ mapGet c7StMid.universes "ghost" = none
    ∧ (loadScene c7StMid "m" 1 = .error (.UniverseNotFound "ghost")
      ∧ loadSceneState c7StMid "m" 1 =
          ((applySceneEntriesState c7StMid 1 [("u", [(1, 42)])]).1,
            some (.UniverseNotFound "ghost")))
    ∧ (mapGet (loadSceneState c7StMid "m" 1).1.universes "u").map
        (fun u => (jsGet u.channels 0, jsGet u.channels 1)) = some (42, 0) :=
  ⟨rfl, rfl, rfl,
    (c7_load_error_handling c7StMid "m" 1).2.1 c7SceneMid [("u", [(1, 42)])]
      "ghost" [(1, 5)] [("u", [(2, 9)])] rfl rfl
      (fun p hp => by rw [List.mem_singleton] at hp; subst hp; rfl) rfl,
    rfl⟩

/-! Section: C3: behavior of operations on an unknown universe -/

theorem mem_setAdd_self (s : List String) (x : String) : x ∈ setAdd s x := by
  unfold setAdd
  by_cases hx : x ∈ s
  · rw [if_pos hx]
    exact hx
  · rw [if_neg hx]
    exact List.mem_append_right _ (List.mem_cons_self _ _)

/-- C3 counterexample. On a controller with no universes: defining a
fixture for the unknown universe `"ghost"` succeeds and registers it
(`setFixtureMapping` never consults the universe registry);
`getUniverseStatus` returns the null sentinel `none` rather than an error;
chase start and strobe start succeed and register effects. None of these
returns `UniverseNotFound`. -/
theorem c3_counterexample :
    mapGet c3St.universes "ghost" = none
    ∧ (mapGet (setFixtureMapping c3St "ghost" "fx" 1 2).1.fixtures
        "ghost-fx").isSome = true
    ∧ getUniverseStatus c3St "ghost" = none
    ∧ (startChase c3St "ghost" [[1]] 0).2.1 = "chase-0"
    ∧ (mapGet (startChase c3St "ghost" [[1]] 0).1.effects
        "chase-0").isSome = true
    ∧ (startStrobe c3St "ghost" [1] 0).2.1 = "strobe-0"
    ∧ (mapGet (startStrobe c3St "ghost" [1] 0).1.effects
        "strobe-0").isSome = true :=
  ⟨rfl, rfl, rfl, rfl, rfl, rfl, rfl⟩

/-- C3 (amended: for an unknown universe id, `setChannel`,
`setChannels`, fade start and the frame encoder do return `UniverseNotFound`;
but fixture define, chase start and strobe start succeed without consulting
the registry, and universe status returns the null sentinel `none` rather
than an error). -/
theorem c3_unknown_universe_behavior (st : DMXController) (uid : String)
    (ch v : ℤ) (now : ℕ) (entries : List (ℤ × ℤ)) (channels : List ℤ)
    (tv : ℤ) (dur : ℚ) (fname : String) (startCh cnt : ℤ)
    (groups : List (List ℤ))
    (h : mapGet st.universes uid = none) :
    setChannel st uid ch v now = .error (.UniverseNotFound uid)
    ∧ setChannels st uid entries now = .error (.UniverseNotFound uid)
    ∧ startFade st uid channels tv dur now = .error (.UniverseNotFound uid)
    ∧ getDMXBuffer st uid = .error (.UniverseNotFound uid)
    ∧ getUniverseStatus st uid = none
    ∧ mapGet (setFixtureMapping st uid fname startCh cnt).1.fixtures
        (uid ++ "-" ++ fname) =
        some (setFixtureMapping st uid fname startCh cnt).2.1
    ∧ (mapGet (startChase st uid groups now).1.effects
        ("chase-" ++ toString now)).isSome = true
    ∧ ("chase-" ++ toString now) ∈ (startChase st uid groups now).1.activeEffects
    ∧ (mapGet (startStrobe st uid channels now).1.effects
        ("strobe-" ++ toString now)).isSome = true
    ∧ ("strobe-" ++ toString now) ∈
        (startStrobe st uid channels now).1.activeEffects := by
  refine ⟨?_, ?_, ?_, ?_, ?_, ?_, ?_, ?_, ?_, ?_⟩
  · simp [setChannel, h]
  · simp [setChannels, h]
  · simp [startFade, h]
  · simp [getDMXBuffer, h]
  · simp [getUniverseStatus, h]
  · exact mapGet_mapSet_self _ _ _
  · rw [show (startChase st uid groups now).1.effects =
      mapSet st.effects ("chase-" ++ toString now)
        (Effect.mk ("chase-" ++ toString now) .CHASE uid [] groups 0 0 0 [] true)
      from rfl, mapGet_mapSet_self]
    rfl
  · exact mem_setAdd_self _ _
  · rw [show (startStrobe st uid channels now).1.effects =
      mapSet st.effects ("strobe-" ++ toString now)
        (Effect.mk ("strobe-" ++ toString now) .STROBE uid channels [] 0 0
          (now : ℚ) [] true)
      from rfl, mapGet_mapSet_self]
    rfl
  · exact mem_setAdd_self _ _

/-- C3 witness: the amended behavior at the empty controller. -/
theorem c3_unknown_universe_behavior_witness :
    mapGet c3St.universes "ghost" = none
    ∧ setChannel c3St "ghost" 1 100 0 = .error (.UniverseNotFound "ghost")
    ∧ getUniverseStatus c3St "ghost" = none :=
  ⟨rfl,
    (c3_unknown_universe_behavior c3St "ghost" 1 100 0 [] [] 0 1 "fx" 1 2
      [[1]] rfl).1,
    (c3_unknown_universe_behavior c3St "ghost" 1 100 0 [] [] 0 1 "fx" 1 2
      [[1]] rfl).2.2.2.2.1⟩

/-! Section: C8: effect parameter validation -/

theorem startFade_ok (st : DMXController) (uid : String) (U : Universe)
    (channels : List ℤ) (tv : ℤ) (dur : ℚ) (now : ℕ)
    (h : mapGet st.universes uid = some U) :
    startFade st uid channels tv dur now = .ok
      ({ st with effects := mapSet st.effects ("fade-" ++ toString now) (fadeEffect uid channels tv dur now U),
                 activeEffects := setAdd st.activeEffects ("fade-" ++ toString now) },
       "fade-" ++ toString now, [.fadeStarted ("fade-" ++ toString now)]) := by
  simp only [startFade, h, fadeEffect]

/-- C8 counterexample. `startFade` with an empty channel set and
duration 0 does not fail with `InvalidEffectParameters` (no such error
exists in the code): it succeeds, returns an effect id, and registers and
schedules the effect; so does a chase started with an empty group list. -/
theorem c8_counterexample :
    startFade c8St "u" ([] : List ℤ) 0 0 5 =
      .ok (c8After, "fade-5", [.fadeStarted "fade-5"])
    ∧ (mapGet c8After.effects "fade-5").isSome = true
    ∧ "fade-5" ∈ c8After.activeEffects
    ∧ (startChase c8St "u" ([] : List (List ℤ)) 6).2.1 = "chase-6"
    ∧ (mapGet (startChase c8St "u" ([] : List (List ℤ)) 6).1.effects
        "chase-6").isSome = true :=
  ⟨rfl, rfl, by decide, rfl, rfl⟩

/-- C8 (amended: no start operation validates kind-specific parameters.
For every parameter choice — including an empty channel set and a
non-positive duration — fade start succeeds on a connected universe and
registers and schedules the effect, and chase and strobe start always
succeed and register; no `InvalidEffectParameters` failure exists). -/
theorem c8_no_parameter_validation (st : DMXController) (uid : String)
    (U : Universe) (channels : List ℤ) (tv : ℤ) (dur : ℚ) (now : ℕ)
    (groups : List (List ℤ))
    (h : mapGet st.universes uid = some U) :
    (∃ st', startFade st uid channels tv dur now =
        .ok (st', "fade-" ++ toString now,
          [.fadeStarted ("fade-" ++ toString now)])
      ∧ (mapGet st'.effects ("fade-" ++ toString now)).isSome = true
      ∧ ("fade-" ++ toString now) ∈ st'.activeEffects)
    ∧ (mapGet (startChase st uid groups now).1.effects
        ("chase-" ++ toString now)).isSome = true
    ∧ ("chase-" ++ toString now) ∈
        (startChase st uid groups now).1.activeEffects
    ∧ (mapGet (startStrobe st uid channels now).1.effects
        ("strobe-" ++ toString now)).isSome = true
    ∧ ("strobe-" ++ toString now) ∈
        (startStrobe st uid channels now).1.activeEffects := by
  refine ⟨⟨_, startFade_ok st uid U channels tv dur now h, ?_, ?_⟩,
    ?_, ?_, ?_, ?_⟩
  · rw [show ({ st with effects := mapSet st.effects ("fade-" ++ toString now) (fadeEffect uid channels tv dur now U), activeEffects := setAdd st.activeEffects ("fade-" ++ toString now) } : DMXController).effects =
      mapSet st.effects ("fade-" ++ toString now)
        (fadeEffect uid channels tv dur now U) from rfl, mapGet_mapSet_self]
    rfl
  · exact mem_setAdd_self _ _
  · rw [show (startChase st uid groups now).1.effects =
      mapSet st.effects ("chase-" ++ toString now)
        (Effect.mk ("chase-" ++ toString now) .CHASE uid [] groups 0 0 0 [] true)
      from rfl, mapGet_mapSet_self]
    rfl
  · exact mem_setAdd_self _ _
  · rw [show (startStrobe st uid channels now).1.effects =
      mapSet st.effects ("strobe-" ++ toString now)
        (Effect.mk ("strobe-" ++ toString now) .STROBE uid channels [] 0 0
          (now : ℚ) [] true)
      from rfl, mapGet_mapSet_self]
    rfl
  · exact mem_setAdd_self _ _

/-- C8 witness: the amended behavior at the concrete universe, with an
empty channel set and duration 0. -/
theorem c8_no_parameter_validation_witness :
    mapGet c8St.universes "u" = some c8U
    ∧ ∃ st', startFade c8St "u" ([] : List ℤ) 0 0 5 =
        .ok (st', "fade-5", [.fadeStarted "fade-5"])
      ∧ (mapGet st'.effects "fade-5").isSome = true
      ∧ "fade-5" ∈ st'.activeEffects :=
  ⟨rfl, (c8_no_parameter_validation c8St "u" c8U [] 0 0 5 [] rfl).1⟩

/-! Section: C9: snapshot aliasing -/

theorem c9U_channels_length : c9U.channels.length = 512 := by
  rw [show c9U.channels = List.replicate 512 0 from rfl, List.length_replicate]

/-- C9 counterexample. `getUniverseStatus` hands out the universe's
channel array object itself (`channels: universe.channels`), not a copy:
after a later `setChannel(u,1,255)`, reading the previously returned status
snapshot shows 255, so a returned snapshot is altered by later writes —
contradicting the claimed defensive point-in-time copy. -/
theorem c9_counterexample :
    (getUniverseStatus c9St "u").map (fun s => s.channelsView) =
      some (ChannelsView.ref "u")
    ∧ readView c9St (ChannelsView.ref "u") = List.replicate 512 0
    ∧ readView c9StMut (ChannelsView.ref "u") =
        (List.replicate 512 0).set 0 255
    ∧ (List.replicate 512 (0 : ℤ)).set 0 255 ≠ List.replicate 512 0 :=
  ⟨rfl, rfl, rfl, by decide⟩

/-- C9 (amended: the frame encoder returns a point-in-time copy — a
fresh buffer whose bytes do not change however the controller state changes
afterwards — but `getUniverseStatus` returns the live channel array:
dereferencing a previously returned status always shows the universe's
current channels, not the values at call time). -/
theorem c9_buffer_copies_status_aliases (st : DMXController) (uid : String)
    (U : Universe) (h : mapGet st.universes uid = some U)
    (hlen : U.channels.length = 512) :
    getDMXBuffer st uid = .ok (0 :: U.channels)
    ∧ (∀ st' : DMXController,
        readView st' (ChannelsView.copy (0 :: U.channels)) = 0 :: U.channels)
    ∧ (getUniverseStatus st uid).map (fun s => s.channelsView) =
        some (ChannelsView.ref uid)
    ∧ (∀ (st' : DMXController) (U' : Universe),
        mapGet st'.universes uid = some U' →
        readView st' (ChannelsView.ref uid) = U'.channels) := by
  refine ⟨?_, fun st' => rfl, ?_, ?_⟩
  · simp only [getDMXBuffer, h]
    rw [← hlen, range_map_jsGet]
  · simp [getUniverseStatus, h]
  · intro st' U' h'
    simp [readView, h']

/-- C9 witness: the amended behavior at the concrete universe. -/
theorem c9_buffer_copies_status_aliases_witness :
    mapGet c9St.universes "u" = some c9U
    ∧ c9U.channels.length = 512
    ∧ (getUniverseStatus c9St "u").map (fun s => s.channelsView) =
        some (ChannelsView.ref "u")
    ∧ getDMXBuffer c9St "u" = .ok (0 :: c9U.channels) :=
  ⟨rfl, c9U_channels_length,
    (c9_buffer_copies_status_aliases c9St "u" c9U rfl c9U_channels_length).2.2.1,
    (c9_buffer_copies_status_aliases c9St "u" c9U rfl c9U_channels_length).1⟩

/-! Section: C1: effect cancellation -/

/-- C1 (code-bug evidence). After `stopEffect("fade-0")` returns, the
fade's record is flagged `running = false` and removed from
`activeEffects` — yet the fade's scheduled interval body never reads
`running`: its next run (50ms later) still hands a batch to `setChannels`,
which changes channel 1 to 100. An infinite strobe flagged stopped likewise
keeps writing at any later time. Only the chase interval checks `running`
and refrains from writing. -/
theorem c1_stop_does_not_prevent_fade_writes :
    mapGet c1Stopped.effects "fade-0" = some c1FadeE
    ∧ c1FadeE.running = false
    ∧ "fade-0" ∉ c1Stopped.activeEffects
    ∧ fadeTick c1FadeE 50 = { writes := some [(1, 100)], cleared := false }
    ∧ (setChannels c1Stopped "u" [(1, 100)] 50).toOption.map
        (fun p => (mapGet p.1.universes "u").map (fun u => jsGet u.channels 0)) =
        some (some 100)
    ∧ strobeTick c1StrobeStopped none true 1000 =
        { writes := some [(1, 255)], cleared := false }
    ∧ chaseTick c1ChaseStopped 0 = { writes := none, cleared := true } :=
  ⟨rfl, rfl, by decide, by norm_num [fadeTick, c1FadeE, jsRound], rfl, rfl,
    rfl⟩

/-! Section: C2: fixture control channel targeting -/

/-- C2 (code-bug evidence). For the fixture at start channel 2,
`controlFixture` with values `[100]` computes `channelIndex =
startChannel - 1 + 0 = 1` and passes it to `setChannels` as a channel
NUMBER, so the write lands on channel 1 (array index 0) instead of the
claimed channel 2: afterwards channel 1 reads 100 and channel 2 reads 0.
For a fixture at start channel 1 the computed channel number 0 fails
`setChannels` validation and the value is silently dropped. The
`FixtureNotFound` half of the claim does hold. -/
theorem c2_control_off_by_one :
    (mapGet c2St.fixtures "u-fx").map (fun f => f.startChannel) = some 2
    ∧ controlFixture c2St "u-fx" [100] 5 =
        .ok (c2After, [.channelsChanged "u" [(1, 100)],
          .fixtureControlled "u-fx"])
    ∧ (mapGet c2After.universes "u").map
        (fun u => (jsGet u.channels 0, jsGet u.channels 1)) = some (100, 0)
    ∧ (controlFixture c2StB "u-g" [100] 5).toOption.map
        (fun p => (mapGet p.1.universes "u").map
          (fun u => (jsGet u.channels 0, jsGet u.channels 1))) =
        some (some (0, 0))
    ∧ controlFixture c2St "missing" [100] 5 =
        .error (.FixtureNotFound "missing") :=
  ⟨rfl, rfl, rfl, rfl, rfl⟩

end DMX
